import Mathlib

/-!
Verification of the `ReferralTracker` referral-tracking script
(`assets/referral-tracker.js`) of the shared-sweeps-premium-store theme.

The file ships two versions of the script: a legacy one that tracks only the
`ref` URL parameter, and the current one that tracks `ref` and `order_id`.
Both are embedded below.  JavaScript string-or-null values are modelled as
`Option String`; JS truthiness on such values (`null`, `undefined` and `""`
are falsy) is `jsTruthy`.  The single localStorage slot under the fixed
storage key is `Storage`; content that `JSON.parse` rejects is the
`StoredContent.malformed` constructor.  Network effects of
`syncReferralToCart` (the outcome of `fetch('/cart.js')`, whether the
`fetch('/cart/update.js')` call throws, and its `response.ok` flag) are
supplied as an explicit `NetworkBehavior`.  The storage write inside
`storeReferral` is modelled as succeeding (in the source a write failure is
caught and logged; the claims quantify over persisted values).
-/

namespace ReferralTracker

/-- `CART_ATTRIBUTE_KEY` from the source. -/
def CART_ATTRIBUTE_KEY : String := "Shared_Sweeps_Referred_By"

/-- `ORDER_ID_ATTRIBUTE_KEY` from the source (current version only). -/
def ORDER_ID_ATTRIBUTE_KEY : String := "Shared_Sweeps_Order_ID"

/-- The landing-page metadata attribute key (inline string literal in the source). -/
def LANDING_PAGE_ATTRIBUTE_KEY : String := "Shared_Sweeps_Referral_Landing_Page"

/-- The captured-at metadata attribute key (inline string literal in the source). -/
def CAPTURED_AT_ATTRIBUTE_KEY : String := "Shared_Sweeps_Referral_Captured_At"

/-- JS truthiness of a string-or-null value: `null`/`undefined` and the empty
string are falsy, every other string is truthy. -/
def jsTruthy : Option String → Bool
  | none => false
  | some s => !(s == "")

/-- JS `a || b` on string-or-null values: `b` when `a` is falsy, else `a`. -/
def jsOr (a b : Option String) : Option String :=
  if jsTruthy a then a else b

/-- The persisted referral record, as written by `storeReferral` and parsed by
`getStoredReferral`.  `code` and `orderId` are string-or-null (`orderId` is
absent, i.e. `none`, for records written by the legacy script). -/
structure ReferralRecord where
  code : Option String
  orderId : Option String
  capturedAt : String
  landingPage : String
deriving DecidableEq, Repr

/-- What sits in localStorage under `STORAGE_KEY`: either JSON that parses to
a referral record, or content `JSON.parse` rejects. -/
inductive StoredContent where
  | valid (r : ReferralRecord)
  | malformed
deriving DecidableEq, Repr

/-- The single localStorage slot under `STORAGE_KEY` (`none` = no item). -/
abbrev Storage := Option StoredContent

/-- `getStoredReferral` (spec operation `readRecord()`): returns the parsed
record, or `none` when the slot is empty or `JSON.parse` throws (the source
catches the exception and returns `null`). -/
def getStoredReferral : Storage → Option ReferralRecord
  | none => none
  | some (StoredContent.valid r) => some r
  | some StoredContent.malformed => none

/-- `storeReferral(referral, orderId)` of the current script: merges the
incoming values with the existing record (`referral || existingData.code ||
null`, `orderId || existingData.orderId || null`), stamps `capturedAt` and
`landingPage`, and writes the merged record. -/
def storeReferral (referral orderId : Option String) (now path : String)
    (s : Storage) : Storage :=
  let existing := getStoredReferral s
  let exCode := match existing with
    | some r => r.code
    | none => none
  let exOrderId := match existing with
    | some r => r.orderId
    | none => none
  some (StoredContent.valid
    { code := jsOr referral (jsOr exCode none)
      orderId := jsOr orderId (jsOr exOrderId none)
      capturedAt := now
      landingPage := path })

/-- `captureReferralFromURL` (spec operation `capture()`): reads the `ref` and
`order_id` query parameters (modelled as the two `Option String` arguments;
`URLSearchParams.get` yields `null` when absent and may yield `""`) and calls
`storeReferral` only when at least one of them is truthy. -/
def captureReferralFromURL (referral orderId : Option String)
    (now path : String) (s : Storage) : Storage :=
  if jsTruthy referral || jsTruthy orderId then
    storeReferral referral orderId now path s
  else
    s

/-- `clearReferral` (spec operation `clear()`): removes the stored item. -/
def clearReferral (_ : Storage) : Storage := none

/-- `getReferralCode` (spec operation `currentCode()`): `data?.code || null`. -/
def getReferralCode (s : Storage) : Option String :=
  match getStoredReferral s with
  | none => none
  | some r => jsOr r.code none

/-- The `/cart.js` response body: its `attributes` mapping (an association
list of string keys to string values), or `none` when the JSON carries no
`attributes` object (the source guards with `cart.attributes && ...`). -/
structure Cart where
  attributes : Option (List (String × String))
deriving DecidableEq, Repr

/-- The outcome of the two network calls inside one `syncReferralToCart`
invocation: the result of `fetch('/cart.js')` (plus `.json()`), whether the
`fetch('/cart/update.js')` call throws, and the `response.ok` flag when it
does not. -/
structure NetworkBehavior where
  fetchResult : Except Unit Cart
  updateThrows : Bool
  updateOk : Bool

/-- Lookup of a cart attribute: `cart.attributes[k]`, `none` when the
`attributes` object is missing or lacks the key. -/
def attrLookup (attrs : Option (List (String × String))) (k : String) :
    Option String :=
  match attrs with
  | none => none
  | some a => a.lookup k

/-- `referralMatches` of the current script:
`!referralData.code || (cart.attributes && cart.attributes[CART_ATTRIBUTE_KEY] === referralData.code)`. -/
def referralMatches (r : ReferralRecord)
    (attrs : Option (List (String × String))) : Bool :=
  !jsTruthy r.code || (attrLookup attrs CART_ATTRIBUTE_KEY == r.code)

/-- `orderIdMatches` of the current script:
`!referralData.orderId || (cart.attributes && cart.attributes[ORDER_ID_ATTRIBUTE_KEY] === referralData.orderId)`. -/
def orderIdMatches (r : ReferralRecord)
    (attrs : Option (List (String × String))) : Bool :=
  !jsTruthy r.orderId || (attrLookup attrs ORDER_ID_ATTRIBUTE_KEY == r.orderId)

/-- The attribute payload the current script builds before the update call:
the two metadata attributes unconditionally, then the code attribute if
`referralData.code` is truthy, then the order-id attribute if
`referralData.orderId` is truthy (object-literal insertion order). -/
def buildAttributes (r : ReferralRecord) : List (String × String) :=
  [(LANDING_PAGE_ATTRIBUTE_KEY, r.landingPage),
   (CAPTURED_AT_ATTRIBUTE_KEY, r.capturedAt)]
  ++ (if jsTruthy r.code then [(CART_ATTRIBUTE_KEY, r.code.getD "")] else [])
  ++ (if jsTruthy r.orderId then
        [(ORDER_ID_ATTRIBUTE_KEY, r.orderId.getD "")] else [])

/-- What one `syncReferralToCart` invocation did.  The `caught...`
constructors are the two exception sites absorbed by the surrounding
`try/catch`; the codomain being `SyncOutcome` (not an error monad) reflects
that the function never propagates a failure to its caller. -/
inductive SyncOutcome where
  | skippedNoData
  | matched
  | updateSent (payload : List (String × String)) (ok : Bool)
  | caughtFetchError
  | caughtUpdateError (payload : List (String × String))
deriving DecidableEq, Repr

/-- `syncReferralToCart` (spec operation `reconcile()`), current script,
threaded through the storage state.  It reads the stored record, returns
early when no tracked field is truthy, fetches the cart, skips when both
match predicates hold, and otherwise issues one update call with
`buildAttributes`; every branch leaves the storage untouched, mirroring the
absence of any `localStorage` write in the source function. -/
def syncReferralToCartS (s : Storage) (net : NetworkBehavior) :
    SyncOutcome × Storage :=
  match getStoredReferral s with
  | none => (SyncOutcome.skippedNoData, s)
  | some r =>
    if !(jsTruthy r.code || jsTruthy r.orderId) then
      (SyncOutcome.skippedNoData, s)
    else
      match net.fetchResult with
      | Except.error _ => (SyncOutcome.caughtFetchError, s)
      | Except.ok cart =>
        if referralMatches r cart.attributes && orderIdMatches r cart.attributes then
          (SyncOutcome.matched, s)
        else if net.updateThrows then
          (SyncOutcome.caughtUpdateError (buildAttributes r), s)
        else
          (SyncOutcome.updateSent (buildAttributes r) net.updateOk, s)

/-- The attribute payload the legacy script sends: the code attribute first,
then the two metadata attributes (object-literal insertion order of the
legacy source). -/
def legacyBuildAttributes (r : ReferralRecord) : List (String × String) :=
  [(CART_ATTRIBUTE_KEY, r.code.getD ""),
   (LANDING_PAGE_ATTRIBUTE_KEY, r.landingPage),
   (CAPTURED_AT_ATTRIBUTE_KEY, r.capturedAt)]

/-- Legacy `syncReferralToCart`: returns early unless `referralData.code` is
truthy, skips when `cart.attributes && cart.attributes[CART_ATTRIBUTE_KEY]
=== referralData.code`, and otherwise sends `legacyBuildAttributes`. -/
def legacySyncReferralToCartS (s : Storage) (net : NetworkBehavior) :
    SyncOutcome × Storage :=
  match getStoredReferral s with
  | none => (SyncOutcome.skippedNoData, s)
  | some r =>
    if !jsTruthy r.code then
      (SyncOutcome.skippedNoData, s)
    else
      match net.fetchResult with
      | Except.error _ => (SyncOutcome.caughtFetchError, s)
      | Except.ok cart =>
        if attrLookup cart.attributes CART_ATTRIBUTE_KEY == r.code then
          (SyncOutcome.matched, s)
        else if net.updateThrows then
          (SyncOutcome.caughtUpdateError (legacyBuildAttributes r), s)
        else
          (SyncOutcome.updateSent (legacyBuildAttributes r) net.updateOk, s)

/-- Whether an outcome issued the `/cart/update.js` request (whether or not
that request then threw or returned a non-ok status). -/
def SyncOutcome.issuesUpdate : SyncOutcome → Bool
  | SyncOutcome.updateSent _ _ => true
  | SyncOutcome.caughtUpdateError _ => true
  | _ => false

/-- The payload of the update request an outcome issued, if any. -/
def SyncOutcome.sentPayload : SyncOutcome → Option (List (String × String))
  | SyncOutcome.updateSent p _ => some p
  | SyncOutcome.caughtUpdateError p => some p
  | _ => none

/-- Number of `/cart/update.js` calls one invocation issued (0 or 1). -/
def updateCalls (o : SyncOutcome) : Nat :=
  if o.issuesUpdate then 1 else 0

/-- One operation of the agent's public interface, with the ambient inputs
(URL parameters, clock, path, network outcomes) made explicit. -/
inductive Op where
  | capture (referral orderId : Option String) (now path : String)
  | reconcile (net : NetworkBehavior)
  | clear
  | readRecord
  | currentCode

/-- Storage effect of one operation.  `readRecord` and `currentCode` only
read; `reconcile` threads the storage through `syncReferralToCartS`. -/
def applyOp (s : Storage) : Op → Storage
  | Op.capture referral orderId now path =>
      captureReferralFromURL referral orderId now path s
  | Op.reconcile net => (syncReferralToCartS s net).2
  | Op.clear => clearReferral s
  | Op.readRecord => s
  | Op.currentCode => s

/-- Storage state after a sequence of operations. -/
def run (s : Storage) (ops : List Op) : Storage :=
  ops.foldl applyOp s

/-- The record invariant: whenever a record is stored, at least one of its
two tracked fields is truthy (non-null and non-empty). -/
def recordOk (s : Storage) : Prop :=
  ∀ r, s = some (StoredContent.valid r) →
    jsTruthy r.code = true ∨ jsTruthy r.orderId = true

lemma jsOr_of_truthy (a b : Option String) (h : jsTruthy a = true) :
    jsOr a b = a := by
  simp [jsOr, h]

lemma jsOr_of_falsy (a b : Option String) (h : jsTruthy a = false) :
    jsOr a b = b := by
  simp [jsOr, h]

lemma isSome_of_jsTruthy (a : Option String) (h : jsTruthy a = true) :
    a.isSome = true := by
  cases a with
  | none => simp [jsTruthy] at h
  | some s => rfl

lemma sync_storage_eq (s : Storage) (net : NetworkBehavior) :
    (syncReferralToCartS s net).2 = s := by
  unfold syncReferralToCartS
  repeat' split
  all_goals rfl

lemma recordOk_store (referral orderId : Option String) (now path : String)
    (s : Storage) (h : jsTruthy referral = true ∨ jsTruthy orderId = true) :
    recordOk (storeReferral referral orderId now path s) := by
  intro r hr
  unfold storeReferral at hr
  injection hr with hr
  injection hr with hr
  subst hr
  rcases h with h | h
  · exact Or.inl (by rw [jsOr_of_truthy _ _ h]; exact h)
  · exact Or.inr (by rw [jsOr_of_truthy _ _ h]; exact h)

lemma recordOk_applyOp (s : Storage) (op : Op) (h : recordOk s) :
    recordOk (applyOp s op) := by
  cases op with
  | capture referral orderId now path =>
    simp only [applyOp, captureReferralFromURL]
    by_cases hc : (jsTruthy referral || jsTruthy orderId) = true
    · rw [if_pos hc]
      exact recordOk_store referral orderId now path s
        (by simpa [Bool.or_eq_true] using hc)
    · rw [if_neg hc]
      exact h
  | reconcile net =>
    simp only [applyOp]
    rw [sync_storage_eq]
    exact h
  | clear =>
    intro r hr
    simp [applyOp, clearReferral] at hr
  | readRecord => exact h
  | currentCode => exact h

lemma recordOk_run (s : Storage) (ops : List Op) (h : recordOk s) :
    recordOk (run s ops) := by
  induction ops generalizing s with
  | nil => exact h
  | cons op ops ih =>
    have : run s (op :: ops) = run (applyOp s op) ops := rfl
    rw [this]
    exact ih _ (recordOk_applyOp s op h)

lemma eq_valid_of_getStoredReferral (s : Storage) (r : ReferralRecord)
    (h : getStoredReferral s = some r) : s = some (StoredContent.valid r) := by
  cases s with
  | none => simp [getStoredReferral] at h
  | some c =>
    cases c with
    | valid r0 =>
      simp [getStoredReferral] at h
      rw [h]
    | malformed => simp [getStoredReferral] at h

lemma referralMatches_of_agree (r : ReferralRecord)
    (attrs : Option (List (String × String)))
    (h : jsTruthy r.code = true → attrLookup attrs CART_ATTRIBUTE_KEY = r.code) :
    referralMatches r attrs = true := by
  unfold referralMatches
  cases hc : jsTruthy r.code with
  | false => simp
  | true => simp [h hc]

lemma orderIdMatches_of_agree (r : ReferralRecord)
    (attrs : Option (List (String × String)))
    (h : jsTruthy r.orderId = true →
      attrLookup attrs ORDER_ID_ATTRIBUTE_KEY = r.orderId) :
    orderIdMatches r attrs = true := by
  unfold orderIdMatches
  cases hc : jsTruthy r.orderId with
  | false => simp
  | true => simp [h hc]

/-- C2: in every state reachable from the empty store by capture, reconcile,
clear, readRecord and currentCode operations, an existing record has `code`
or `orderId` non-null; and a capture supplying neither parameter never
creates nor overwrites a record. -/
theorem c2_record_invariant :
    (∀ (ops : List Op) (r : ReferralRecord),
        run none ops = some (StoredContent.valid r) →
        r.code.isSome = true ∨ r.orderId.isSome = true)
    ∧ ∀ (s : Storage) (now path : String),
        applyOp s (Op.capture none none now path) = s := by
  constructor
  · intro ops r hr
    have hok : recordOk (run none ops) :=
      recordOk_run none ops (by intro r hr; cases hr)
    rcases hok r hr with h | h
    · exact Or.inl (isSome_of_jsTruthy _ h)
    · exact Or.inr (isSome_of_jsTruthy _ h)
  · intro s now path
    simp [applyOp, captureReferralFromURL, jsTruthy]

theorem c2_witness :
    ((⟨some "a", none, "t", "/"⟩ : ReferralRecord).code.isSome = true
      ∨ (⟨some "a", none, "t", "/"⟩ : ReferralRecord).orderId.isSome = true)
    ∧ applyOp (some (StoredContent.valid ⟨some "a", none, "t", "/"⟩))
        (Op.capture none none "t2" "/x")
      = some (StoredContent.valid ⟨some "a", none, "t", "/"⟩) :=
  ⟨c2_record_invariant.1 [Op.capture (some "a") none "t" "/"] _ (by decide),
   c2_record_invariant.2 _ "t2" "/x"⟩

/-- C1 as stated is refuted at `C = ""`: with record `{code: "a", orderId:
null}` persisted, a capture supplying only `ref` with the empty-string value
leaves `code` at `"a"` instead of persisting `code = ""` (URLSearchParams
yields `""` for `?ref=`, which is falsy, so no store happens at all). -/
theorem c1_counterexample :
    (getStoredReferral (captureReferralFromURL (some "") none "t1" "/x"
        (some (StoredContent.valid ⟨some "a", none, "t0", "/p0"⟩)))).map
      ReferralRecord.code ≠ some (some "") := by
  decide

/-- C1 (amended): for a previously persisted record `{code: A, orderId: B}`
with `B` null or non-empty (as every record `storeReferral` writes), a
capture supplying only `ref` with a non-empty value `C` persists
`{code: C, orderId: B}` (with fresh stamps), and a capture supplying neither
parameter leaves any storage state unchanged. -/
theorem c1_amended_capture_merge (A B : Option String) (t0 p0 now path : String)
    (C : String) (hC : C ≠ "") (hB : B = none ∨ jsTruthy B = true) :
    captureReferralFromURL (some C) none now path
        (some (StoredContent.valid ⟨A, B, t0, p0⟩))
      = some (StoredContent.valid ⟨some C, B, now, path⟩)
    ∧ ∀ s : Storage, captureReferralFromURL none none now path s = s := by
  constructor
  · have hCt : jsTruthy (some C) = true := by simp [jsTruthy, hC]
    unfold captureReferralFromURL
    rw [if_pos (by simp [hCt])]
    unfold storeReferral
    simp only [getStoredReferral]
    rw [jsOr_of_truthy _ _ hCt]
    rcases hB with rfl | hB
    · simp [jsOr, jsTruthy]
    · rw [jsOr_of_falsy none (jsOr B none) rfl, jsOr_of_truthy _ _ hB]
  · intro s
    simp [captureReferralFromURL, jsTruthy]

theorem c1_witness :
    captureReferralFromURL (some "b") none "t1" "/x"
        (some (StoredContent.valid ⟨some "a", some "9", "t0", "/p0"⟩))
      = some (StoredContent.valid ⟨some "b", some "9", "t1", "/x"⟩)
    ∧ captureReferralFromURL none none "t1" "/x" (some StoredContent.malformed)
      = some StoredContent.malformed :=
  ⟨(c1_amended_capture_merge (some "a") (some "9") "t0" "/p0" "t1" "/x" "b"
      (by decide) (Or.inr (by decide))).1,
   (c1_amended_capture_merge (some "a") (some "9") "t0" "/p0" "t1" "/x" "b"
      (by decide) (Or.inr (by decide))).2 (some StoredContent.malformed)⟩

/-- C6: when the storage slot is empty or holds content `JSON.parse`
rejects, `getStoredReferral` returns the absent sentinel `none`; being a
total function into `Option ReferralRecord`, it propagates no failure. -/
theorem c6_malformed_read (s : Storage)
    (h : s = none ∨ s = some StoredContent.malformed) :
    getStoredReferral s = none := by
  rcases h with rfl | rfl <;> rfl

theorem c6_witness : getStoredReferral (some StoredContent.malformed) = none :=
  c6_malformed_read (some StoredContent.malformed) (Or.inr rfl)

/-- C7: for every storage state and every outcome of the two network calls
(fetch failure, update failure, non-success response, no-op match, or
successful write), `syncReferralToCartS` leaves the storage unchanged; its
codomain `SyncOutcome × Storage` (rather than an error monad) reflects that
the source catches both exception sites and never throws to its caller. -/
theorem c7_reconcile_frame (s : Storage) (net : NetworkBehavior) :
    (syncReferralToCartS s net).2 = s :=
  sync_storage_eq s net

/-- C8 as stated is refuted at `X = ""`: after a clear, a capture supplying
only `ref` with the empty-string value produces no record at all, not
`{code: "", orderId: null}`. -/
theorem c8_counterexample :
    getStoredReferral (captureReferralFromURL (some "") none "t1" "/x"
        (clearReferral (some (StoredContent.valid ⟨some "a", some "9", "t0", "/p0"⟩))))
      = none := by
  decide

/-- C8 (amended): for every pre-clear state, clear followed by a capture
supplying only `ref` with a non-empty value `X` produces the fresh record
`{code: X, orderId: null}` with the new stamps; and clear is idempotent —
clearing an absent record is a no-op. -/
theorem c8_amended_clear_then_capture (s : Storage) (X now path : String)
    (hX : X ≠ "") :
    captureReferralFromURL (some X) none now path (clearReferral s)
      = some (StoredContent.valid ⟨some X, none, now, path⟩)
    ∧ clearReferral (clearReferral s) = clearReferral s
    ∧ clearReferral none = none := by
  refine ⟨?_, rfl, rfl⟩
  have hXt : jsTruthy (some X) = true := by simp [jsTruthy, hX]
  unfold captureReferralFromURL
  rw [if_pos (by simp [hXt])]
  unfold storeReferral clearReferral
  simp only [getStoredReferral]
  rw [jsOr_of_truthy _ _ hXt]
  simp [jsOr, jsTruthy]

theorem c8_witness :
    captureReferralFromURL (some "b") none "t1" "/x"
        (clearReferral (some (StoredContent.valid ⟨some "a", some "9", "t0", "/p0"⟩)))
      = some (StoredContent.valid ⟨some "b", none, "t1", "/x"⟩)
    ∧ clearReferral (clearReferral (some (StoredContent.valid
        ⟨some "a", some "9", "t0", "/p0"⟩)))
      = clearReferral (some (StoredContent.valid ⟨some "a", some "9", "t0", "/p0"⟩))
    ∧ clearReferral none = none :=
  c8_amended_clear_then_capture
    (some (StoredContent.valid ⟨some "a", some "9", "t0", "/p0"⟩))
    "b" "t1" "/x" (by decide)

/-- C9: a present-but-empty URL parameter behaves exactly like an absent
one: a capture whose parameters are both empty or absent is a no-op, an
empty parameter never overwrites the other stored non-empty field during
the merge, and `getReferralCode` returns the absent sentinel when the
stored `code` is the empty string. -/
theorem c9_empty_param_as_absent :
    (∀ (referral orderId : Option String) (now path : String) (s : Storage),
        jsTruthy referral = false → jsTruthy orderId = false →
        captureReferralFromURL referral orderId now path s = s)
    ∧ (∀ (r : ReferralRecord) (orderId : Option String) (now path : String),
        jsTruthy r.code = true →
        (getStoredReferral (captureReferralFromURL (some "") orderId now path
            (some (StoredContent.valid r)))).map ReferralRecord.code
          = some r.code)
    ∧ (∀ (r : ReferralRecord) (referral : Option String) (now path : String),
        jsTruthy r.orderId = true →
        (getStoredReferral (captureReferralFromURL referral (some "") now path
            (some (StoredContent.valid r)))).map ReferralRecord.orderId
          = some r.orderId)
    ∧ ∀ r : ReferralRecord, r.code = some "" →
        getReferralCode (some (StoredContent.valid r)) = none := by
  refine ⟨?_, ?_, ?_, ?_⟩
  · intro referral orderId now path s h1 h2
    simp [captureReferralFromURL, h1, h2]
  · intro r orderId now path h
    have he : jsTruthy (some "") = false := rfl
    unfold captureReferralFromURL
    rw [he]
    cases ho : jsTruthy orderId with
    | false =>
      rw [if_neg (by simp)]
      simp [getStoredReferral]
    | true =>
      rw [if_pos (by simp)]
      unfold storeReferral
      simp only [getStoredReferral]
      rw [jsOr_of_falsy (some "") _ he, jsOr_of_truthy _ _ h]
      simp [getStoredReferral]
  · intro r referral now path h
    have he : jsTruthy (some "") = false := rfl
    unfold captureReferralFromURL
    rw [he]
    cases hr : jsTruthy referral with
    | false =>
      rw [if_neg (by simp)]
      simp [getStoredReferral]
    | true =>
      rw [if_pos (by simp)]
      unfold storeReferral
      simp only [getStoredReferral]
      rw [jsOr_of_falsy (some "") _ he, jsOr_of_truthy _ _ h]
      simp [getStoredReferral]
  · intro r h
    simp [getReferralCode, getStoredReferral, h, jsOr, jsTruthy]

theorem c9_witness :
    captureReferralFromURL (some "") (some "") "t" "/" (some StoredContent.malformed)
      = some StoredContent.malformed
    ∧ (getStoredReferral (captureReferralFromURL (some "") (some "9") "t" "/"
        (some (StoredContent.valid ⟨some "a", none, "t0", "/p"⟩)))).map
        ReferralRecord.code = some (some "a")
    ∧ (getStoredReferral (captureReferralFromURL (some "b") (some "") "t" "/"
        (some (StoredContent.valid ⟨some "a", some "9", "t0", "/p"⟩)))).map
        ReferralRecord.orderId = some (some "9")
    ∧ getReferralCode (some (StoredContent.valid ⟨some "", some "9", "t0", "/p"⟩))
      = none :=
  ⟨c9_empty_param_as_absent.1 (some "") (some "") "t" "/"
      (some StoredContent.malformed) (by decide) (by decide),
   c9_empty_param_as_absent.2.1 ⟨some "a", none, "t0", "/p"⟩ (some "9") "t" "/"
      (by decide),
   c9_empty_param_as_absent.2.2.1 ⟨some "a", some "9", "t0", "/p"⟩ (some "b")
      "t" "/" (by decide),
   c9_empty_param_as_absent.2.2.2 ⟨some "", some "9", "t0", "/p"⟩ rfl⟩

/-- C3: when every tracked field that is set in the stored record equals the
corresponding live cart attribute, `syncReferralToCart` issues zero update
calls. -/
theorem c3_reconcile_idempotent (s : Storage) (r : ReferralRecord)
    (net : NetworkBehavior) (cart : Cart)
    (hr : getStoredReferral s = some r)
    (hf : net.fetchResult = Except.ok cart)
    (hcode : jsTruthy r.code = true →
      attrLookup cart.attributes CART_ATTRIBUTE_KEY = r.code)
    (horder : jsTruthy r.orderId = true →
      attrLookup cart.attributes ORDER_ID_ATTRIBUTE_KEY = r.orderId) :
    updateCalls (syncReferralToCartS s net).1 = 0 := by
  have hs := eq_valid_of_getStoredReferral s r hr
  subst hs
  have hm1 := referralMatches_of_agree r cart.attributes hcode
  have hm2 := orderIdMatches_of_agree r cart.attributes horder
  simp only [syncReferralToCartS, getStoredReferral, hf, hm1, hm2,
    Bool.and_self, if_true]
  split
  · rfl
  · rfl

theorem c3_witness :
    updateCalls (syncReferralToCartS
        (some (StoredContent.valid ⟨some "store1", none, "t", "/p"⟩))
        ⟨Except.ok ⟨some [(CART_ATTRIBUTE_KEY, "store1")]⟩, false, true⟩).1 = 0 :=
  c3_reconcile_idempotent
    (some (StoredContent.valid ⟨some "store1", none, "t", "/p"⟩))
    ⟨some "store1", none, "t", "/p"⟩
    ⟨Except.ok ⟨some [(CART_ATTRIBUTE_KEY, "store1")]⟩, false, true⟩
    ⟨some [(CART_ATTRIBUTE_KEY, "store1")]⟩
    rfl rfl (fun _ => by decide) (fun h => by cases h)

/-- C4: with persisted record `{code: "store1", orderId: null}` and an empty
live attributes mapping, `syncReferralToCart` issues exactly one update call
whose payload carries the code attribute set to `"store1"` and the two
metadata attributes, and omits the order-id attribute. -/
theorem c4_write_correctness (s : Storage) (t p : String)
    (net : NetworkBehavior)
    (hr : getStoredReferral s = some ⟨some "store1", none, t, p⟩)
    (hf : net.fetchResult = Except.ok ⟨some []⟩) :
    updateCalls (syncReferralToCartS s net).1 = 1
    ∧ (syncReferralToCartS s net).1.sentPayload
        = some (buildAttributes ⟨some "store1", none, t, p⟩)
    ∧ (buildAttributes ⟨some "store1", none, t, p⟩).lookup CART_ATTRIBUTE_KEY
        = some "store1"
    ∧ (buildAttributes ⟨some "store1", none, t, p⟩).lookup LANDING_PAGE_ATTRIBUTE_KEY
        = some p
    ∧ (buildAttributes ⟨some "store1", none, t, p⟩).lookup CAPTURED_AT_ATTRIBUTE_KEY
        = some t
    ∧ (buildAttributes ⟨some "store1", none, t, p⟩).lookup ORDER_ID_ATTRIBUTE_KEY
        = none := by
  have hs := eq_valid_of_getStoredReferral s _ hr
  subst hs
  have hcalls : updateCalls (syncReferralToCartS
        (some (StoredContent.valid ⟨some "store1", none, t, p⟩)) net).1 = 1
      ∧ (syncReferralToCartS
        (some (StoredContent.valid ⟨some "store1", none, t, p⟩)) net).1.sentPayload
        = some (buildAttributes ⟨some "store1", none, t, p⟩) := by
    cases hu : net.updateThrows <;>
      simp [syncReferralToCartS, getStoredReferral, hf, hu, jsTruthy,
        referralMatches, orderIdMatches, attrLookup, List.lookup, updateCalls,
        SyncOutcome.issuesUpdate, SyncOutcome.sentPayload]
  refine ⟨hcalls.1, hcalls.2, ?_, ?_, ?_, ?_⟩ <;>
    simp [buildAttributes, List.lookup, jsTruthy, CART_ATTRIBUTE_KEY,
      ORDER_ID_ATTRIBUTE_KEY, LANDING_PAGE_ATTRIBUTE_KEY,
      CAPTURED_AT_ATTRIBUTE_KEY]

theorem c4_witness :
    updateCalls (syncReferralToCartS
        (some (StoredContent.valid ⟨some "store1", none, "t", "/p"⟩))
        ⟨Except.ok ⟨some []⟩, false, true⟩).1 = 1
    ∧ (syncReferralToCartS
        (some (StoredContent.valid ⟨some "store1", none, "t", "/p"⟩))
        ⟨Except.ok ⟨some []⟩, false, true⟩).1.sentPayload
        = some (buildAttributes ⟨some "store1", none, "t", "/p"⟩)
    ∧ (buildAttributes ⟨some "store1", none, "t", "/p"⟩).lookup CART_ATTRIBUTE_KEY
        = some "store1"
    ∧ (buildAttributes ⟨some "store1", none, "t", "/p"⟩).lookup LANDING_PAGE_ATTRIBUTE_KEY
        = some "/p"
    ∧ (buildAttributes ⟨some "store1", none, "t", "/p"⟩).lookup CAPTURED_AT_ATTRIBUTE_KEY
        = some "t"
    ∧ (buildAttributes ⟨some "store1", none, "t", "/p"⟩).lookup ORDER_ID_ATTRIBUTE_KEY
        = none :=
  c4_write_correctness
    (some (StoredContent.valid ⟨some "store1", none, "t", "/p"⟩))
    "t" "/p" ⟨Except.ok ⟨some []⟩, false, true⟩ rfl rfl

/-- C5: with persisted record `{code: "store1", orderId: "99"}` and live
attributes carrying only the code attribute `"store1"`, the order-id field
does not match, so `syncReferralToCart` issues an update whose payload
carries both tracked attributes. -/
theorem c5_partial_match (s : Storage) (t p : String) (net : NetworkBehavior)
    (hr : getStoredReferral s = some ⟨some "store1", some "99", t, p⟩)
    (hf : net.fetchResult = Except.ok ⟨some [(CART_ATTRIBUTE_KEY, "store1")]⟩) :
    updateCalls (syncReferralToCartS s net).1 = 1
    ∧ (syncReferralToCartS s net).1.sentPayload
        = some (buildAttributes ⟨some "store1", some "99", t, p⟩)
    ∧ (buildAttributes ⟨some "store1", some "99", t, p⟩).lookup CART_ATTRIBUTE_KEY
        = some "store1"
    ∧ (buildAttributes ⟨some "store1", some "99", t, p⟩).lookup ORDER_ID_ATTRIBUTE_KEY
        = some "99" := by
  have hs := eq_valid_of_getStoredReferral s _ hr
  subst hs
  have hcalls : updateCalls (syncReferralToCartS
        (some (StoredContent.valid ⟨some "store1", some "99", t, p⟩)) net).1 = 1
      ∧ (syncReferralToCartS
        (some (StoredContent.valid ⟨some "store1", some "99", t, p⟩)) net).1.sentPayload
        = some (buildAttributes ⟨some "store1", some "99", t, p⟩) := by
    cases hu : net.updateThrows <;>
      simp [syncReferralToCartS, getStoredReferral, hf, hu, jsTruthy,
        referralMatches, orderIdMatches, attrLookup, List.lookup, updateCalls,
        SyncOutcome.issuesUpdate, SyncOutcome.sentPayload, CART_ATTRIBUTE_KEY,
        ORDER_ID_ATTRIBUTE_KEY]
  refine ⟨hcalls.1, hcalls.2, ?_, ?_⟩ <;>
    simp [buildAttributes, List.lookup, jsTruthy, CART_ATTRIBUTE_KEY,
      ORDER_ID_ATTRIBUTE_KEY, LANDING_PAGE_ATTRIBUTE_KEY,
      CAPTURED_AT_ATTRIBUTE_KEY]

theorem c5_witness :
    updateCalls (syncReferralToCartS
        (some (StoredContent.valid ⟨some "store1", some "99", "t", "/p"⟩))
        ⟨Except.ok ⟨some [(CART_ATTRIBUTE_KEY, "store1")]⟩, false, true⟩).1 = 1
    ∧ (syncReferralToCartS
        (some (StoredContent.valid ⟨some "store1", some "99", "t", "/p"⟩))
        ⟨Except.ok ⟨some [(CART_ATTRIBUTE_KEY, "store1")]⟩, false, true⟩).1.sentPayload
        = some (buildAttributes ⟨some "store1", some "99", "t", "/p"⟩)
    ∧ (buildAttributes ⟨some "store1", some "99", "t", "/p"⟩).lookup CART_ATTRIBUTE_KEY
        = some "store1"
    ∧ (buildAttributes ⟨some "store1", some "99", "t", "/p"⟩).lookup ORDER_ID_ATTRIBUTE_KEY
        = some "99" :=
  c5_partial_match
    (some (StoredContent.valid ⟨some "store1", some "99", "t", "/p"⟩))
    "t" "/p" ⟨Except.ok ⟨some [(CART_ATTRIBUTE_KEY, "store1")]⟩, false, true⟩
    rfl rfl

lemma lookup_legacy_current_payload (c lp ca k : String) :
    List.lookup k [(CART_ATTRIBUTE_KEY, c), (LANDING_PAGE_ATTRIBUTE_KEY, lp),
        (CAPTURED_AT_ATTRIBUTE_KEY, ca)]
      = List.lookup k [(LANDING_PAGE_ATTRIBUTE_KEY, lp),
          (CAPTURED_AT_ATTRIBUTE_KEY, ca), (CART_ATTRIBUTE_KEY, c)] := by
  by_cases h1 : k = CART_ATTRIBUTE_KEY
  · subst h1
    simp [List.lookup, CART_ATTRIBUTE_KEY, LANDING_PAGE_ATTRIBUTE_KEY,
      CAPTURED_AT_ATTRIBUTE_KEY]
  · by_cases h2 : k = LANDING_PAGE_ATTRIBUTE_KEY
    · subst h2
      simp [List.lookup, CART_ATTRIBUTE_KEY, LANDING_PAGE_ATTRIBUTE_KEY,
        CAPTURED_AT_ATTRIBUTE_KEY]
    · by_cases h3 : k = CAPTURED_AT_ATTRIBUTE_KEY
      · subst h3
        simp [List.lookup, CART_ATTRIBUTE_KEY, LANDING_PAGE_ATTRIBUTE_KEY,
          CAPTURED_AT_ATTRIBUTE_KEY]
      · have e1 : (k == CART_ATTRIBUTE_KEY) = false := beq_eq_false_iff_ne.mpr h1
        have e2 : (k == LANDING_PAGE_ATTRIBUTE_KEY) = false :=
          beq_eq_false_iff_ne.mpr h2
        have e3 : (k == CAPTURED_AT_ATTRIBUTE_KEY) = false :=
          beq_eq_false_iff_ne.mpr h3
        simp [List.lookup, e1, e2, e3]

/-- C10: for a stored record whose `code` is truthy and whose `orderId` is
null or absent, the legacy single-parameter `syncReferralToCart` and the
current two-parameter one make the same write-or-skip decision, and when
they write, their payloads agree on every attribute key. -/
theorem c10_legacy_refinement (s : Storage) (r : ReferralRecord)
    (net : NetworkBehavior)
    (hr : getStoredReferral s = some r)
    (hcode : jsTruthy r.code = true)
    (horder : r.orderId = none) :
    (legacySyncReferralToCartS s net).1.issuesUpdate
      = (syncReferralToCartS s net).1.issuesUpdate
    ∧ ∀ P1 P2, (legacySyncReferralToCartS s net).1.sentPayload = some P1 →
        (syncReferralToCartS s net).1.sentPayload = some P2 →
        ∀ k, P1.lookup k = P2.lookup k := by
  have hs := eq_valid_of_getStoredReferral s r hr
  subst hs
  have hot : jsTruthy r.orderId = false := by rw [horder]; rfl
  have hpay : ∀ k, (legacyBuildAttributes r).lookup k = (buildAttributes r).lookup k := by
    intro k
    simp only [legacyBuildAttributes, buildAttributes, hcode, hot,
      Bool.false_eq_true, if_true, if_false, List.append_nil]
    exact lookup_legacy_current_payload (r.code.getD "") r.landingPage r.capturedAt k
  cases hfr : net.fetchResult with
  | error e =>
    have hL : (legacySyncReferralToCartS (some (StoredContent.valid r)) net).1
        = SyncOutcome.caughtFetchError := by
      simp [legacySyncReferralToCartS, getStoredReferral, hfr, hcode]
    have hC : (syncReferralToCartS (some (StoredContent.valid r)) net).1
        = SyncOutcome.caughtFetchError := by
      simp [syncReferralToCartS, getStoredReferral, hfr, hcode]
    rw [hL, hC]
    exact ⟨rfl, by intro P1 P2 h1 h2; cases h1⟩
  | ok cart =>
    have hrm : referralMatches r cart.attributes
        = (attrLookup cart.attributes CART_ATTRIBUTE_KEY == r.code) := by
      simp [referralMatches, hcode]
    have hom : orderIdMatches r cart.attributes = true := by
      simp [orderIdMatches, hot]
    cases hl : attrLookup cart.attributes CART_ATTRIBUTE_KEY == r.code with
    | true =>
      have hL : (legacySyncReferralToCartS (some (StoredContent.valid r)) net).1
          = SyncOutcome.matched := by
        simp [legacySyncReferralToCartS, getStoredReferral, hfr, hcode, hl]
      have hC : (syncReferralToCartS (some (StoredContent.valid r)) net).1
          = SyncOutcome.matched := by
        simp [syncReferralToCartS, getStoredReferral, hfr, hcode, hrm, hom, hl]
      rw [hL, hC]
      exact ⟨rfl, by intro P1 P2 h1 h2; cases h1⟩
    | false =>
      cases hu : net.updateThrows with
      | true =>
        have hL : (legacySyncReferralToCartS (some (StoredContent.valid r)) net).1
            = SyncOutcome.caughtUpdateError (legacyBuildAttributes r) := by
          simp [legacySyncReferralToCartS, getStoredReferral, hfr, hcode, hl, hu]
        have hC : (syncReferralToCartS (some (StoredContent.valid r)) net).1
            = SyncOutcome.caughtUpdateError (buildAttributes r) := by
          simp [syncReferralToCartS, getStoredReferral, hfr, hcode, hrm, hom,
            hl, hu]
        rw [hL, hC]
        refine ⟨rfl, ?_⟩
        intro P1 P2 h1 h2
        simp only [SyncOutcome.sentPayload, Option.some.injEq] at h1 h2
        rw [← h1, ← h2]
        exact hpay
      | false =>
        have hL : (legacySyncReferralToCartS (some (StoredContent.valid r)) net).1
            = SyncOutcome.updateSent (legacyBuildAttributes r) net.updateOk := by
          simp [legacySyncReferralToCartS, getStoredReferral, hfr, hcode, hl, hu]
        have hC : (syncReferralToCartS (some (StoredContent.valid r)) net).1
            = SyncOutcome.updateSent (buildAttributes r) net.updateOk := by
          simp [syncReferralToCartS, getStoredReferral, hfr, hcode, hrm, hom,
            hl, hu]
        rw [hL, hC]
        refine ⟨rfl, ?_⟩
        intro P1 P2 h1 h2
        simp only [SyncOutcome.sentPayload, Option.some.injEq] at h1 h2
        rw [← h1, ← h2]
        exact hpay

theorem c10_witness :
    (legacySyncReferralToCartS
        (some (StoredContent.valid ⟨some "store1", none, "t", "/p"⟩))
        ⟨Except.ok ⟨some []⟩, false, true⟩).1.issuesUpdate
      = (syncReferralToCartS
        (some (StoredContent.valid ⟨some "store1", none, "t", "/p"⟩))
        ⟨Except.ok ⟨some []⟩, false, true⟩).1.issuesUpdate
    ∧ (legacyBuildAttributes ⟨some "store1", none, "t", "/p"⟩).lookup
        CART_ATTRIBUTE_KEY
      = (buildAttributes ⟨some "store1", none, "t", "/p"⟩).lookup
        CART_ATTRIBUTE_KEY := by
  have h := c10_legacy_refinement
    (some (StoredContent.valid ⟨some "store1", none, "t", "/p"⟩))
    ⟨some "store1", none, "t", "/p"⟩
    ⟨Except.ok ⟨some []⟩, false, true⟩ rfl (by decide) rfl
  exact ⟨h.1, h.2 (legacyBuildAttributes ⟨some "store1", none, "t", "/p"⟩)
    (buildAttributes ⟨some "store1", none, "t", "/p"⟩)
    (by decide) (by decide) CART_ATTRIBUTE_KEY⟩

end ReferralTracker
